import Mathlib

/-!
Verification of the `conditions` weather-logging pipeline.

The repository is a small Node.js script family that fetches weather data
from the met.no HTTP APIs for a configured list of GPS locations and appends
readings to a Google Sheet.  Several historical variants of the script exist
side by side in the repository:

* a minimal long-format variant (`fetchWeatherV1` / `appendToSheetLong`):
  temperature only, columns Date/Hour/Location/Temperature;
* the current long-format variant (`fetchWeather` / `appendToSheetLongV2`):
  temperature, 6-hour precipitation sum and cloud cover, with locations
  grouped by an optional `area` label during fetching;
* a wide-format variant (`appendToSheetWide`): one column per location name,
  header grows as new location names appear;
* a bulk sample-data generator (`appendToSheetBulk`): appends historical rows
  in batches of at most 1000.

Numbers are modelled as rationals; HTTP responses as explicit records; the
spreadsheet API as a trace of calls (`SheetCall`).  Each script's `main` is
modelled as a pure function from an environment (per-coordinate responses)
to a `RunResult` recording the readings collected, the fetch calls made, the
sheet calls issued and the process exit code.
-/

namespace Conditions

/-- A configured location: `{name, latitude, longitude, area?}` from
`config/locations.json`. -/
structure Location where
  name : String
  latitude : Rat
  longitude : Rat
  area : Option String
deriving DecidableEq

/-- An HTTP response: success flag (`response.ok`), status code and parsed
JSON body. -/
structure HttpResp (α : Type) where
  ok : Bool
  status : Nat
  body : α
deriving DecidableEq

/-- One entry of the Nowcast time series.  `airTemperature` models
`entry.data.instant.details.air_temperature`, `precipAmount` models the
optional `entry.data.next_1_hours?.details?.precipitation_amount`, and
`time` models `entry.time`. -/
structure NowcastEntry where
  airTemperature : Rat
  precipAmount : Option Rat
  time : String
deriving DecidableEq, Inhabited

/-- One entry of the Locationforecast time series; `cloudAreaFraction`
models the optional `entry.data.instant.details.cloud_area_fraction`. -/
structure ForecastEntry where
  cloudAreaFraction : Option Rat
deriving DecidableEq, Inhabited

/-- Errors thrown inside `fetchWeather`: a non-success HTTP status
(`throw new Error(...)` on `!response.ok`) or a JavaScript `TypeError`
from indexing an empty `timeseries`. -/
inductive FetchError where
  | nowcastApiError (status : Nat)
  | malformedResponse
deriving DecidableEq

/-- The value returned by the v2 `fetchWeather`. -/
structure WeatherResult where
  temperature : Rat
  precipitation : Rat
  cloudCover : Option Rat
  timestamp : String
deriving DecidableEq

/-- The value returned by the v1 `fetchWeather` (temperature only). -/
structure WeatherResultV1 where
  temperature : Rat
  timestamp : String
deriving DecidableEq

/-- An element of the v2 `weatherData` array pushed by `main`. -/
structure Reading where
  area : String
  location : String
  latitude : Rat
  longitude : Rat
  temperature : Rat
  precipitation : Rat
  cloudCover : Option Rat
deriving DecidableEq

/-- An element of the v1 `weatherData` array pushed by `main`. -/
structure ReadingV1 where
  location : String
  latitude : Rat
  longitude : Rat
  temperature : Rat
deriving DecidableEq

/-- A spreadsheet cell value as sent over the API: a string, a number, or
JavaScript `null`. -/
inductive Cell where
  | str (s : String)
  | num (v : Rat)
  | null
deriving DecidableEq

/-- One call issued to the Google Sheets API. -/
inductive SheetCall where
  | getValues (range : String)
  | update (range : String) (values : List (List Cell))
  | append (range : String) (values : List (List Cell))
deriving DecidableEq

/-- JavaScript `v || 0` for an optional numeric field: `undefined` and the
falsy number `0` both yield `0`. -/
def jsOrZero (v : Option Rat) : Rat :=
  match v with
  | none => 0
  | some x => if x = 0 then 0 else x

/-- The precipitation loop of `fetchWeather`: for
`i < Math.min(6, timeseries.length)`, add
`timeseries[i].data.next_1_hours?.details?.precipitation_amount` when the
field is defined. -/
def precipSum (ts : List NowcastEntry) : Rat :=
  ((ts.take 6).map (fun e => e.precipAmount.getD 0)).sum

/-- The v2 `fetchWeather(latitude, longitude)`, as a function of the two
HTTP responses the call observes: the Nowcast (primary) response and the
Locationforecast (secondary, cloud cover) response. -/
def fetchWeather (nowcastResponse : HttpResp (List NowcastEntry))
    (forecastResponse : HttpResp (List ForecastEntry)) :
    Except FetchError WeatherResult :=
  if nowcastResponse.ok = false then
    Except.error (FetchError.nowcastApiError nowcastResponse.status)
  else
    match nowcastResponse.body with
    | [] => Except.error FetchError.malformedResponse
    | current :: _ =>
      if forecastResponse.ok then
        match forecastResponse.body with
        | [] => Except.error FetchError.malformedResponse
        | forecastCurrent :: _ =>
          Except.ok { temperature := current.airTemperature,
                      precipitation := precipSum nowcastResponse.body,
                      cloudCover := some (jsOrZero forecastCurrent.cloudAreaFraction),
                      timestamp := current.time }
      else
        Except.ok { temperature := current.airTemperature,
                    precipitation := precipSum nowcastResponse.body,
                    cloudCover := none,
                    timestamp := current.time }

/-- The v1 `fetchWeather(latitude, longitude)`: a single Nowcast call
returning temperature and timestamp. -/
def fetchWeatherV1 (response : HttpResp (List NowcastEntry)) :
    Except FetchError WeatherResultV1 :=
  if response.ok = false then
    Except.error (FetchError.nowcastApiError response.status)
  else
    match response.body with
    | [] => Except.error FetchError.malformedResponse
    | current :: _ =>
      Except.ok { temperature := current.airTemperature, timestamp := current.time }

/-- Spec-side formulation of the precipitation accumulation: the sum, over
the first `min 6 (length of series)` indices, of the `next_1_hours`
precipitation amount at that index, a missing field contributing 0. -/
def specPrecipSum (ts : List NowcastEntry) : Rat :=
  ∑ i ∈ Finset.range (min 6 ts.length), ((ts.getD i default).precipAmount.getD 0)

/-- The per-coordinate responses of the weather provider during one run:
what the Nowcast and Locationforecast endpoints return for each
`(lat, lon)` query. -/
structure Env where
  nowcast : Rat → Rat → HttpResp (List NowcastEntry)
  forecast : Rat → Rat → HttpResp (List ForecastEntry)

/-- JavaScript `location.area || 'Other'`: `undefined` and the empty
string are both falsy and yield `"Other"`. -/
def areaLabel (a : Option String) : String :=
  match a with
  | none => "Other"
  | some s => if s = "" then "Other" else s

/-- One step of the `reduce` that builds `locationsByArea`: push `l` onto
the group keyed `a`, or add a new group at the end (JavaScript object keys
preserve insertion order for these string keys). -/
def insertByArea (acc : List (String × List Location)) (a : String) (l : Location) :
    List (String × List Location) :=
  match acc with
  | [] => [(a, [l])]
  | (k, g) :: rest =>
    if k = a then (k, g ++ [l]) :: rest
    else (k, g) :: insertByArea rest a l

/-- `locations.reduce(...)` grouping locations by `location.area || 'Other'`. -/
def groupByArea (locs : List Location) : List (String × List Location) :=
  locs.foldl (fun acc l => insertByArea acc (areaLabel l.area) l) []

/-- The order in which the v2 `main` actually fetches locations:
`Object.entries(locationsByArea)` outer loop, per-area inner loop. -/
def fetchOrder (locs : List Location) : List Location :=
  ((groupByArea locs).map Prod.snd).flatten

/-- The record pushed onto `weatherData` by the v2 `main` for one location. -/
def mkReading (l : Location) (w : WeatherResult) : Reading :=
  { area := areaLabel l.area, location := l.name,
    latitude := l.latitude, longitude := l.longitude,
    temperature := w.temperature, precipitation := w.precipitation,
    cloudCover := w.cloudCover }

/-- Result of running a fetch loop: the readings pushed so far, the fetch
calls actually performed (as coordinate pairs), and the error that aborted
the loop, if any. -/
structure CollectResult (ρ : Type) where
  readings : List ρ
  fetchCalls : List (Rat × Rat)
  err : Option FetchError
deriving DecidableEq

/-- The sequential fetch loop of the v2 `main` over a plain location list:
fetch each location in order, push a reading, abort on the first thrown
error (readings pushed before the failure are retained in `weatherData`). -/
def collectSeq (env : Env) : List Location → CollectResult Reading
  | [] => ⟨[], [], none⟩
  | l :: ls =>
    match fetchWeather (env.nowcast l.latitude l.longitude)
        (env.forecast l.latitude l.longitude) with
    | Except.error e => ⟨[], [(l.latitude, l.longitude)], some e⟩
    | Except.ok w =>
      let r := collectSeq env ls
      ⟨mkReading l w :: r.readings, (l.latitude, l.longitude) :: r.fetchCalls, r.err⟩

/-- The nested fetch loops of the v2 `main`: outer loop over
`Object.entries(locationsByArea)`, inner loop over each area's locations;
a thrown error aborts both loops. -/
def collectGroups (env : Env) : List (String × List Location) → CollectResult Reading
  | [] => ⟨[], [], none⟩
  | (_, gl) :: gs =>
    let r := collectSeq env gl
    match r.err with
    | some e => ⟨r.readings, r.fetchCalls, some e⟩
    | none =>
      let r2 := collectGroups env gs
      ⟨r.readings ++ r2.readings, r.fetchCalls ++ r2.fetchCalls, r2.err⟩

/-- Whether `fetchWeather` succeeds for location `l` under `env`. -/
def fetchOk (env : Env) (l : Location) : Bool :=
  match fetchWeather (env.nowcast l.latitude l.longitude)
      (env.forecast l.latitude l.longitude) with
  | Except.ok _ => true
  | Except.error _ => false

/-- The v1 weather provider environment: only the Nowcast endpoint. -/
def EnvV1 : Type := Rat → Rat → HttpResp (List NowcastEntry)

/-- The sequential fetch loop of the v1 `main`, in plain input order. -/
def collectSeqV1 (env : EnvV1) : List Location → CollectResult ReadingV1
  | [] => ⟨[], [], none⟩
  | l :: ls =>
    match fetchWeatherV1 (env l.latitude l.longitude) with
    | Except.error e => ⟨[], [(l.latitude, l.longitude)], some e⟩
    | Except.ok w =>
      let r := collectSeqV1 env ls
      ⟨{ location := l.name, latitude := l.latitude, longitude := l.longitude,
         temperature := w.temperature } :: r.readings,
       (l.latitude, l.longitude) :: r.fetchCalls, r.err⟩

/-- Whether `fetchWeatherV1` succeeds for location `l` under `env`. -/
def fetchOkV1 (env : EnvV1) (l : Location) : Bool :=
  match fetchWeatherV1 (env l.latitude l.longitude) with
  | Except.ok _ => true
  | Except.error _ => false

/-- Default header of the minimal long layout. -/
def longHeaderV1 : List String := ["Date", "Hour", "Location", "Temperature"]

/-- Default header of the current long layout. -/
def longHeaderV2 : List String :=
  ["Date", "Hour", "Area", "Location", "Temperature", "Precipitation", "CloudCover"]

/-- An optional numeric value as a cell: JavaScript `null` stays `null`. -/
def cellOfOpt (v : Option Rat) : Cell :=
  match v with
  | none => Cell.null
  | some x => Cell.num x

/-- The row built per reading by the v1 `appendToSheet`:
`[date, hour, weather.location, weather.temperature]`. -/
def rowOfReadingV1 (date hour : String) (w : ReadingV1) : List Cell :=
  [Cell.str date, Cell.str hour, Cell.str w.location, Cell.num w.temperature]

/-- The row built per reading by the v2 `appendToSheet`:
`[date, hour, area, location, temperature, precipitation, cloudCover]`. -/
def rowOfReadingV2 (date hour : String) (w : Reading) : List Cell :=
  [Cell.str date, Cell.str hour, Cell.str w.area, Cell.str w.location,
   Cell.num w.temperature, Cell.num w.precipitation, cellOfOpt w.cloudCover]

/-- The v1 long-format `appendToSheet`, as the sheet calls it issues, given
the header row currently in the sheet. -/
def appendToSheetLong (existingHeaders : List String) (weatherData : List ReadingV1)
    (date hour : String) : List SheetCall :=
  SheetCall.getValues "Sheet1!A1:D1" ::
    (if existingHeaders.length = 0 then
      [SheetCall.update "Sheet1!A1" [longHeaderV1.map Cell.str]]
    else []) ++
    [SheetCall.append "Sheet1!A:D" (weatherData.map (rowOfReadingV1 date hour))]

/-- The v2 long-format `appendToSheet`, as the sheet calls it issues, given
the header row currently in the sheet. -/
def appendToSheetLongV2 (existingHeaders : List String) (weatherData : List Reading)
    (date hour : String) : List SheetCall :=
  SheetCall.getValues "Sheet1!A1:G1" ::
    (if existingHeaders.length = 0 then
      [SheetCall.update "Sheet1!A1" [longHeaderV2.map Cell.str]]
    else []) ++
    [SheetCall.append "Sheet1!A:G" (weatherData.map (rowOfReadingV2 date hour))]

/-- Result of the wide-format `appendToSheet`: the calls issued, the final
header row (after any growth), and the single data row appended. -/
structure WideResult where
  calls : List SheetCall
  header : List String
  row : List Cell
deriving DecidableEq

/-- The wide-format `appendToSheet`: initialise the header to
`['Date','Hour']` if the sheet is empty, append a column for every location
name not yet among the header's location columns, then build one row whose
cells follow the (possibly grown) header's column order, an unmatched
location column receiving the empty string. -/
def appendToSheetWide (existing : List String) (locations : List Location)
    (weatherData : List ReadingV1) (date hour : String) : WideResult :=
  let init := if existing.length = 0 then ["Date", "Hour"] else existing
  let initCalls :=
    if existing.length = 0 then
      [SheetCall.update "Sheet1!A1" [init.map Cell.str]]
    else []
  let currentLocationNames := init.drop 2
  let newLocationNames :=
    (locations.map (fun l => l.name)).filter
      (fun n => !(currentLocationNames.contains n))
  let headers := init ++ newLocationNames
  let headerCalls :=
    if newLocationNames.length > 0 then
      [SheetCall.update "Sheet1!A1" [headers.map Cell.str]]
    else []
  let row := [Cell.str date, Cell.str hour] ++
    (headers.drop 2).map (fun n =>
      match weatherData.find? (fun w => w.location == n) with
      | some w => Cell.num w.temperature
      | none => Cell.str "")
  { calls := SheetCall.getValues "Sheet1!A1:ZZ1" ::
      initCalls ++ headerCalls ++ [SheetCall.append "Sheet1!A:ZZ" [row]],
    header := headers,
    row := row }

/-- The batching loop of the sample-data `appendToSheet`: slice the rows
into consecutive chunks of at most 1000. -/
def chunkRows : List (List Cell) → List (List (List Cell))
  | [] => []
  | r :: rs => ((r :: rs).take 1000) :: chunkRows ((r :: rs).drop 1000)
termination_by l => l.length
decreasing_by simp [List.length_drop]; omega

/-- The sample-data `appendToSheet`: ensure the long header exists, then
append the rows in batches of at most 1000. -/
def appendToSheetBulk (existingHeaders : List String)
    (rows : List (List Cell)) : List SheetCall :=
  SheetCall.getValues "Sheet1!A1:D1" ::
    (if existingHeaders.length = 0 then
      [SheetCall.update "Sheet1!A1" [longHeaderV1.map Cell.str]]
    else []) ++
    (chunkRows rows).map (fun batch => SheetCall.append "Sheet1!A:D" batch)

/-- The body of an `append` sheet call, if the call is an append. -/
def appendBody : SheetCall → Option (List (List Cell))
  | SheetCall.append _ vs => some vs
  | _ => none

/-- Observable outcome of one `main` run: the `weatherData` accumulated,
the weather fetches performed, the sheet calls issued, and the process exit
code. -/
structure RunResult (ρ : Type) where
  readings : List ρ
  fetchCalls : List (Rat × Rat)
  sheetCalls : List SheetCall
  exitCode : Nat
deriving DecidableEq

/-- The v2 `main`: group by area, fetch sequentially, then (unless dry-run
or a fetch failed) run the sheet writer; any thrown error yields exit code
1 with no sheet call issued. -/
def mainRun (env : Env) (existingHeaders : List String) (date hour : String)
    (dryRun : Bool) (locs : List Location) : RunResult Reading :=
  let c := collectGroups env (groupByArea locs)
  match c.err with
  | some _ => ⟨c.readings, c.fetchCalls, [], 1⟩
  | none =>
    if dryRun then ⟨c.readings, c.fetchCalls, [], 0⟩
    else ⟨c.readings, c.fetchCalls,
          appendToSheetLongV2 existingHeaders c.readings date hour, 0⟩

/-- The v1 `main`: fetch sequentially in input order, then (unless dry-run
or a fetch failed) run the sheet writer. -/
def mainRunV1 (env : EnvV1) (existingHeaders : List String) (date hour : String)
    (dryRun : Bool) (locs : List Location) : RunResult ReadingV1 :=
  let c := collectSeqV1 env locs
  match c.err with
  | some _ => ⟨c.readings, c.fetchCalls, [], 1⟩
  | none =>
    if dryRun then ⟨c.readings, c.fetchCalls, [], 0⟩
    else ⟨c.readings, c.fetchCalls,
          appendToSheetLong existingHeaders c.readings date hour, 0⟩

/-- Sample location "A" in area "X". -/
def locAX : Location := ⟨"A", 1, 10, some "X"⟩

/-- Sample location "B" in area "Y". -/
def locBY : Location := ⟨"B", 2, 20, some "Y"⟩

/-- Sample location "C" in area "X". -/
def locCX : Location := ⟨"C", 3, 30, some "X"⟩

/-- A successful Nowcast response with a two-entry series. -/
def okNowcastResp : HttpResp (List NowcastEntry) :=
  ⟨true, 200, [⟨5, some 1, "t0"⟩, ⟨4, none, "t1"⟩]⟩

/-- A successful Locationforecast response reporting 50% cloud cover. -/
def okForecastResp : HttpResp (List ForecastEntry) :=
  ⟨true, 200, [⟨some 50⟩]⟩

/-- An environment in which every query succeeds. -/
def constEnv : Env := ⟨fun _ _ => okNowcastResp, fun _ _ => okForecastResp⟩

/-- A v1 environment in which every query succeeds. -/
def constEnvV1 : EnvV1 := fun _ _ => okNowcastResp

/-- An environment whose Nowcast endpoint returns HTTP 500 exactly for
queries at latitude `latBad`. -/
def envFailAt (latBad : Rat) : Env :=
  ⟨fun lat _ => if lat = latBad then ⟨false, 500, []⟩ else okNowcastResp,
   fun _ _ => okForecastResp⟩

/-- The weather result of a fetch against `okNowcastResp` and
`okForecastResp`. -/
def sampleWeather : WeatherResult := ⟨5, 1, some 50, "t0"⟩

/-- A sample wide-layout header already holding one location column. -/
def wideHeader0 : List String := ["Date", "Hour", "A"]

/-- A sample v1 reading for location "A". -/
def sampleReadingV1 : ReadingV1 := ⟨"A", 1, 10, 5⟩

/-- A successful collection visits every location in order: its readings
carry the location names in order and its fetch calls are the coordinate
pairs in order. -/
theorem collectSeq_err_none (env : Env) (xs : List Location)
    (h : (collectSeq env xs).err = none) :
    (collectSeq env xs).readings.map (fun r => r.location) =
      xs.map (fun l => l.name) ∧
    (collectSeq env xs).fetchCalls = xs.map (fun l => (l.latitude, l.longitude)) := by
  induction xs with
  | nil => simp [collectSeq]
  | cons l ls ih =>
    cases hfw : fetchWeather (env.nowcast l.latitude l.longitude)
        (env.forecast l.latitude l.longitude) with
    | error e => simp [collectSeq, hfw] at h
    | ok w =>
      simp only [collectSeq, hfw] at h ⊢
      obtain ⟨h1, h2⟩ := ih h
      simp [mkReading, h1, h2]

/-- v1 version of `collectSeq_err_none`. -/
theorem collectSeqV1_err_none (env : EnvV1) (xs : List Location)
    (h : (collectSeqV1 env xs).err = none) :
    (collectSeqV1 env xs).readings.map (fun r => r.location) =
      xs.map (fun l => l.name) ∧
    (collectSeqV1 env xs).fetchCalls = xs.map (fun l => (l.latitude, l.longitude)) := by
  induction xs with
  | nil => simp [collectSeqV1]
  | cons l ls ih =>
    cases hfw : fetchWeatherV1 (env l.latitude l.longitude) with
    | error e => simp [collectSeqV1, hfw] at h
    | ok w =>
      simp only [collectSeqV1, hfw] at h ⊢
      obtain ⟨h1, h2⟩ := ih h
      simp [h1, h2]

/-- Splitting a sequential collection at a list append. -/
theorem collectSeq_append (env : Env) (xs ys : List Location) :
    collectSeq env (xs ++ ys) =
      (match (collectSeq env xs).err with
       | some _ => collectSeq env xs
       | none =>
         ⟨(collectSeq env xs).readings ++ (collectSeq env ys).readings,
          (collectSeq env xs).fetchCalls ++ (collectSeq env ys).fetchCalls,
          (collectSeq env ys).err⟩) := by
  induction xs with
  | nil => simp [collectSeq]
  | cons l ls ih =>
    cases hfw : fetchWeather (env.nowcast l.latitude l.longitude)
        (env.forecast l.latitude l.longitude) with
    | error e => simp [collectSeq, hfw]
    | ok w =>
      rw [List.cons_append]
      simp only [collectSeq, hfw]
      rw [ih]
      cases h : (collectSeq env ls).err <;> simp [h]

/-- The nested per-area loops are the sequential loop over the flattened
grouping. -/
theorem collectGroups_eq (env : Env) (gs : List (String × List Location)) :
    collectGroups env gs = collectSeq env ((gs.map Prod.snd).flatten) := by
  induction gs with
  | nil => simp [collectGroups, collectSeq]
  | cons p gs ih =>
    obtain ⟨a, gl⟩ := p
    simp only [List.map_cons, List.flatten_cons, collectSeq_append, collectGroups, ← ih]
    cases h : (collectSeq env gl).err with
    | some e => simp only [h]; rw [← h]
    | none => simp [h]

/-- Inserting a location into the grouping appends it, up to permutation,
to the flattened grouping. -/
theorem insertByArea_flatten_perm (acc : List (String × List Location))
    (a : String) (l : Location) :
    List.Perm (((insertByArea acc a l).map Prod.snd).flatten)
      (((acc.map Prod.snd).flatten) ++ [l]) := by
  induction acc with
  | nil => simp [insertByArea]
  | cons p rest ih =>
    obtain ⟨k, g⟩ := p
    by_cases h : k = a
    · simp only [insertByArea, h, if_pos rfl, List.map_cons, List.flatten_cons]
      have h1 : List.Perm ([l] ++ ((rest.map Prod.snd).flatten))
          (((rest.map Prod.snd).flatten) ++ [l]) := List.perm_append_comm
      have h2 := List.Perm.append_left g h1
      simpa [List.append_assoc] using h2
    · simp only [insertByArea, h, if_neg h, List.map_cons, List.flatten_cons]
      have h2 := List.Perm.append_left g ih
      simpa [List.append_assoc] using h2

/-- Grouping after appending one location is one insertion into the
previous grouping. -/
theorem groupByArea_concat (locs : List Location) (l : Location) :
    groupByArea (locs ++ [l]) = insertByArea (groupByArea locs) (areaLabel l.area) l := by
  simp [groupByArea, List.foldl_append]

/-- The area-grouped fetch order is a permutation of the input order. -/
theorem fetchOrder_perm (locs : List Location) : List.Perm (fetchOrder locs) locs := by
  induction locs using List.reverseRecOn with
  | nil => simp [fetchOrder, groupByArea]
  | append_singleton xs x ih =>
    have h1 : List.Perm (fetchOrder (xs ++ [x])) (fetchOrder xs ++ [x]) := by
      unfold fetchOrder
      rw [groupByArea_concat]
      exact insertByArea_flatten_perm (groupByArea xs) (areaLabel x.area) x
    exact h1.trans (List.Perm.append_right [x] ih)

/-- If the primary endpoint reports a non-success status for `l`, the fetch
for `l` fails. -/
theorem fetchOk_false_of_nowcast (env : Env) (l : Location)
    (h : (env.nowcast l.latitude l.longitude).ok = false) :
    fetchOk env l = false := by
  simp [fetchOk, fetchWeather, h]

/-- A sequential collection over a list containing a failing location
aborts: it records an error, and the location names of its readings form a
prefix of the names before the failing location. -/
theorem collectSeq_stops (env : Env) (pre : List Location) (L : Location)
    (post : List Location) (hbad : fetchOk env L = false) :
    (collectSeq env (pre ++ L :: post)).err.isSome = true ∧
    ∃ t, (collectSeq env (pre ++ L :: post)).readings.map (fun r => r.location) ++ t =
      pre.map (fun l => l.name) := by
  induction pre with
  | nil =>
    cases hfw : fetchWeather (env.nowcast L.latitude L.longitude)
        (env.forecast L.latitude L.longitude) with
    | error e => exact ⟨by simp [collectSeq, hfw], [], by simp [collectSeq, hfw]⟩
    | ok w => simp [fetchOk, hfw] at hbad
  | cons p pre ih =>
    cases hfw : fetchWeather (env.nowcast p.latitude p.longitude)
        (env.forecast p.latitude p.longitude) with
    | error e =>
      refine ⟨by simp [collectSeq, hfw], p.name :: pre.map (fun l => l.name), ?_⟩
      simp [collectSeq, hfw]
    | ok w =>
      obtain ⟨h1, t, ht⟩ := ih
      refine ⟨by simpa [collectSeq, hfw] using h1, t, ?_⟩
      simp [collectSeq, hfw, mkReading]
      exact ht

/-- If every fetch succeeds, the sequential collection reports no error. -/
theorem collectSeq_all_ok (env : Env) (xs : List Location)
    (h : xs.all (fetchOk env) = true) :
    (collectSeq env xs).err = none := by
  induction xs with
  | nil => simp [collectSeq]
  | cons l ls ih =>
    simp only [List.all_cons, Bool.and_eq_true] at h
    cases hfw : fetchWeather (env.nowcast l.latitude l.longitude)
        (env.forecast l.latitude l.longitude) with
    | error e => simp [fetchOk, hfw] at h
    | ok w => simpa [collectSeq, hfw] using ih h.2

/-- v1 version of `collectSeq_all_ok`. -/
theorem collectSeqV1_all_ok (env : EnvV1) (xs : List Location)
    (h : xs.all (fetchOkV1 env) = true) :
    (collectSeqV1 env xs).err = none := by
  induction xs with
  | nil => simp [collectSeqV1]
  | cons l ls ih =>
    simp only [List.all_cons, Bool.and_eq_true] at h
    cases hfw : fetchWeatherV1 (env l.latitude l.longitude) with
    | error e => simp [fetchOkV1, hfw] at h
    | ok w => simpa [collectSeqV1, hfw] using ih h.2

/-- Concatenating the batches restores the original row list. -/
theorem chunkRows_flatten (rows : List (List Cell)) :
    (chunkRows rows).flatten = rows := by
  induction rows using chunkRows.induct with
  | case1 => simp [chunkRows]
  | case2 r rs ih =>
    rw [chunkRows]
    have ih2 : (chunkRows (List.drop 999 rs)).flatten = List.drop 999 rs := by
      simpa using ih
    simp [ih2, List.take_append_drop]

/-- Every batch holds at most 1000 rows. -/
theorem chunkRows_le (rows : List (List Cell)) :
    (chunkRows rows).all (fun batch => batch.length ≤ 1000) = true := by
  induction rows using chunkRows.induct with
  | case1 => simp [chunkRows]
  | case2 r rs ih =>
    rw [chunkRows]
    simp only [List.all_cons, Bool.and_eq_true, ih, and_true]
    simp [List.length_take]

/-- Sum of a function over the first `n` entries of a list, as an indexed
sum over `Finset.range (min n (length))`. -/
theorem sum_take_map_eq (f : NowcastEntry → Rat) (n : Nat) (ts : List NowcastEntry) :
    ((ts.take n).map f).sum =
      ∑ i ∈ Finset.range (min n ts.length), f (ts.getD i default) := by
  induction ts generalizing n with
  | nil => simp
  | cons e rest ih =>
    cases n with
    | zero => simp
    | succ m =>
      simp only [List.take_succ_cons, List.map_cons, List.sum_cons, List.length_cons,
        Nat.succ_min_succ, Finset.sum_range_succ']
      simp only [List.getD_cons_succ, List.getD_cons_zero, ih]
      ring

/-- The v2 `precipSum` equals its indexed spec formulation. -/
theorem precipSum_eq_spec (ts : List NowcastEntry) : precipSum ts = specPrecipSum ts := by
  unfold precipSum specPrecipSum
  exact sum_take_map_eq (fun e => e.precipAmount.getD 0) 6 ts

/-- A successful v2 fetch reports the precipitation loop's sum over the
Nowcast series. -/
theorem fetchWeather_ok_precip (nr : HttpResp (List NowcastEntry))
    (fr : HttpResp (List ForecastEntry)) (w : WeatherResult)
    (hw : fetchWeather nr fr = Except.ok w) :
    w.precipitation = precipSum nr.body := by
  unfold fetchWeather at hw
  split at hw
  · cases hw
  · split at hw
    · cases hw
    · split at hw
      · split at hw
        · cases hw
        · cases hw; rfl
      · cases hw; rfl

/-- The header produced by the wide-format sheet writer, unfolded. -/
theorem appendToSheetWide_header (existing : List String) (locations : List Location)
    (weatherData : List ReadingV1) (date hour : String) :
    (appendToSheetWide existing locations weatherData date hour).header =
      (if existing.length = 0 then ["Date", "Hour"] else existing) ++
        (locations.map (fun l => l.name)).filter
          (fun n =>
            !((((if existing.length = 0 then ["Date", "Hour"] else existing)).drop 2).contains n)) :=
  rfl

/-- The data row produced by the wide-format sheet writer, unfolded. -/
theorem appendToSheetWide_row (existing : List String) (locations : List Location)
    (weatherData : List ReadingV1) (date hour : String) :
    (appendToSheetWide existing locations weatherData date hour).row =
      [Cell.str date, Cell.str hour] ++
        ((appendToSheetWide existing locations weatherData date hour).header.drop 2).map
          (fun n =>
            match weatherData.find? (fun w => w.location == n) with
            | some w => Cell.num w.temperature
            | none => Cell.str "") :=
  rfl

/-- Indexing a row made of two leading cells followed by a map over the
header's location columns. -/
theorem two_prefix_map_getD (g : String → Cell) (c1 c2 : Cell) (H : List String)
    (i : Nat) (h2 : 2 ≤ i) (hi : i < H.length) :
    (([c1, c2] ++ (H.drop 2).map g).getD i Cell.null) = g (H.getD i "") := by
  obtain ⟨j, rfl⟩ : ∃ j, i = j + 2 := ⟨i - 2, by omega⟩
  simp only [List.cons_append, List.nil_append, List.getD_cons_succ]
  have hj : j < ((H.drop 2).map g).length := by
    simp [List.length_map, List.length_drop]
    omega
  have h3 : (H.drop 2).length > j := by simpa [List.length_map] using hj
  rw [List.getD_eq_getElem _ _ hj, List.getD_eq_getElem _ _ (by omega : j + 2 < H.length)]
  rw [List.getElem_map]
  congr 1
  rw [List.getElem_drop]
  congr 1
  omega

/-- Claim C2: for every observation series returned by the primary
endpoint, a successful fetch's precipitation value equals the sum of the
`next_1_hours` precipitation amount over the first `min 6 (series length)`
entries of the series, an entry lacking that field contributing 0. -/
theorem precipitation_matches_spec (nr : HttpResp (List NowcastEntry))
    (fr : HttpResp (List ForecastEntry)) (w : WeatherResult)
    (hw : fetchWeather nr fr = Except.ok w) :
    w.precipitation = specPrecipSum nr.body := by
  rw [fetchWeather_ok_precip nr fr w hw, precipSum_eq_spec]

/-- Witness for claim C2 at a concrete two-entry series. -/
theorem precipitation_matches_spec_witness :
    fetchWeather okNowcastResp okForecastResp = Except.ok sampleWeather ∧
    sampleWeather.precipitation = specPrecipSum okNowcastResp.body := by
  have h : fetchWeather okNowcastResp okForecastResp = Except.ok sampleWeather := by
    norm_num [fetchWeather, okNowcastResp, okForecastResp, precipSum, jsOrZero, sampleWeather]
  exact ⟨h, precipitation_matches_spec _ _ _ h⟩

/-- Claim C4: if the primary (Nowcast) endpoint succeeds with a non-empty
series but the secondary cloud-cover endpoint returns a non-success status,
the fetch still returns a reading whose cloud cover is null; a non-success
status from the primary endpoint makes the fetch fail. -/
theorem cloud_cover_degradation (nr : HttpResp (List NowcastEntry))
    (fr : HttpResp (List ForecastEntry))
    (hok : nr.ok = true) (hne : nr.body ≠ []) (hfr : fr.ok = false) :
    (∃ w, fetchWeather nr fr = Except.ok w ∧ w.cloudCover = none) ∧
    (∀ nr2 : HttpResp (List NowcastEntry), ∀ fr2 : HttpResp (List ForecastEntry),
      nr2.ok = false →
      fetchWeather nr2 fr2 = Except.error (FetchError.nowcastApiError nr2.status)) := by
  constructor
  · obtain ⟨current, rest, hb⟩ : ∃ c r, nr.body = c :: r := by
      cases hbb : nr.body with
      | nil => exact absurd hbb hne
      | cons c r => exact ⟨c, r, rfl⟩
    refine ⟨⟨current.airTemperature, precipSum (current :: rest), none, current.time⟩,
      ?_, rfl⟩
    simp [fetchWeather, hok, hfr, hb]
  · intro nr2 fr2 h2
    simp [fetchWeather, h2]

/-- Witness for claim C4: a failing secondary endpoint yields a null cloud
cover. -/
theorem cloud_cover_degradation_witness :
    (okNowcastResp.ok = true ∧ okNowcastResp.body ≠ [] ∧
      (⟨false, 404, []⟩ : HttpResp (List ForecastEntry)).ok = false) ∧
    ((∃ w, fetchWeather okNowcastResp ⟨false, 404, []⟩ = Except.ok w ∧
        w.cloudCover = none) ∧
     (∀ nr2 : HttpResp (List NowcastEntry), ∀ fr2 : HttpResp (List ForecastEntry),
        nr2.ok = false →
        fetchWeather nr2 fr2 = Except.error (FetchError.nowcastApiError nr2.status))) := by
  have h1 : okNowcastResp.ok = true := rfl
  have h2 : okNowcastResp.body ≠ [] := by simp [okNowcastResp]
  have h3 : (⟨false, 404, []⟩ : HttpResp (List ForecastEntry)).ok = false := rfl
  exact ⟨⟨h1, h2, h3⟩, cloud_cover_degradation okNowcastResp _ h1 h2 h3⟩

/-- Claim C9: when the secondary endpoint succeeds but its first entry's
cloud fraction is absent or 0 (falsy), the reading's cloud cover is 0 —
distinct from the null recorded when the secondary endpoint fails. -/
theorem cloud_cover_falsy_is_zero (nr : HttpResp (List NowcastEntry))
    (fr : HttpResp (List ForecastEntry))
    (hok : nr.ok = true) (hne : nr.body ≠ []) (hfr : fr.ok = true)
    (fc : ForecastEntry) (fs : List ForecastEntry) (hbody : fr.body = fc :: fs)
    (hfalsy : fc.cloudAreaFraction = none ∨ fc.cloudAreaFraction = some 0) :
    ∃ w, fetchWeather nr fr = Except.ok w ∧ w.cloudCover = some 0 ∧
      w.cloudCover ≠ none := by
  obtain ⟨current, rest, hb⟩ : ∃ c r, nr.body = c :: r := by
    cases hbb : nr.body with
    | nil => exact absurd hbb hne
    | cons c r => exact ⟨c, r, rfl⟩
  have hz : jsOrZero fc.cloudAreaFraction = 0 := by
    rcases hfalsy with h | h <;> simp [jsOrZero, h]
  refine ⟨⟨current.airTemperature, precipSum (current :: rest), some 0, current.time⟩,
    ?_, rfl, by simp⟩
  simp [fetchWeather, hok, hfr, hb, hbody, hz]

/-- Witness for claim C9: an absent cloud fraction yields cloud cover 0. -/
theorem cloud_cover_falsy_is_zero_witness :
    (okNowcastResp.ok = true ∧ okNowcastResp.body ≠ [] ∧
      (⟨true, 200, [⟨none⟩]⟩ : HttpResp (List ForecastEntry)).ok = true ∧
      (⟨true, 200, [⟨none⟩]⟩ : HttpResp (List ForecastEntry)).body =
        (⟨none⟩ : ForecastEntry) :: [] ∧
      ((⟨none⟩ : ForecastEntry).cloudAreaFraction = none ∨
       (⟨none⟩ : ForecastEntry).cloudAreaFraction = some 0)) ∧
    (∃ w, fetchWeather okNowcastResp ⟨true, 200, [⟨none⟩]⟩ = Except.ok w ∧
      w.cloudCover = some 0 ∧ w.cloudCover ≠ none) := by
  have h1 : okNowcastResp.ok = true := rfl
  have h2 : okNowcastResp.body ≠ [] := by simp [okNowcastResp]
  have h3 : (⟨true, 200, [⟨none⟩]⟩ : HttpResp (List ForecastEntry)).ok = true := rfl
  have h4 : (⟨true, 200, [⟨none⟩]⟩ : HttpResp (List ForecastEntry)).body =
      (⟨none⟩ : ForecastEntry) :: [] := rfl
  have h5 : (⟨none⟩ : ForecastEntry).cloudAreaFraction = none ∨
      (⟨none⟩ : ForecastEntry).cloudAreaFraction = some 0 := Or.inl rfl
  exact ⟨⟨h1, h2, h3, h4, h5⟩,
    cloud_cover_falsy_is_zero okNowcastResp _ h1 h2 h3 _ _ h4 h5⟩

/-- Claim C1 counterexample: with area labels X, Y, X on input order
A, B, C, the area-grouped run collects readings in order A, C, B, not in
the input order — even though every fetch succeeds. -/
theorem reading_order_counterexample :
    (mainRun constEnv [] "2025-12-03" "00" true [locAX, locBY, locCX]).readings.map
        (fun r => r.location) ≠
      [locAX, locBY, locCX].map (fun l => l.name) := by decide

/-- Claim C1 (amended): for every non-empty location list whose collection
succeeds, the collector produces exactly one reading per location; the v1
collector yields them in input order, while the area-grouped v2 collector
yields them in area-grouped order (areas by first appearance, input order
within an area) — a permutation of the input order. -/
theorem one_reading_per_location (envA : EnvV1) (env : Env) (locs : List Location)
    (h1 : (collectSeqV1 envA locs).err = none)
    (h2 : (collectGroups env (groupByArea locs)).err = none) :
    (collectSeqV1 envA locs).readings.map (fun r => r.location) =
      locs.map (fun l => l.name) ∧
    (collectGroups env (groupByArea locs)).readings.map (fun r => r.location) =
      (fetchOrder locs).map (fun l => l.name) ∧
    List.Perm
      ((collectGroups env (groupByArea locs)).readings.map (fun r => r.location))
      (locs.map (fun l => l.name)) := by
  have e1 := collectSeqV1_err_none envA locs h1
  have heq : collectGroups env (groupByArea locs) = collectSeq env (fetchOrder locs) :=
    collectGroups_eq env (groupByArea locs)
  rw [heq] at h2
  have e2 := collectSeq_err_none env (fetchOrder locs) h2
  refine ⟨e1.1, ?_, ?_⟩
  · rw [heq]; exact e2.1
  · rw [heq, e2.1]
    exact (fetchOrder_perm locs).map (fun l => l.name)

/-- Witness for amended claim C1 at the three-location example. -/
theorem one_reading_per_location_witness :
    ((collectSeqV1 constEnvV1 [locAX, locBY, locCX]).err = none ∧
     (collectGroups constEnv (groupByArea [locAX, locBY, locCX])).err = none) ∧
    ((collectSeqV1 constEnvV1 [locAX, locBY, locCX]).readings.map (fun r => r.location) =
        [locAX, locBY, locCX].map (fun l => l.name) ∧
     (collectGroups constEnv (groupByArea [locAX, locBY, locCX])).readings.map
         (fun r => r.location) =
       (fetchOrder [locAX, locBY, locCX]).map (fun l => l.name) ∧
     List.Perm
       ((collectGroups constEnv (groupByArea [locAX, locBY, locCX])).readings.map
         (fun r => r.location))
       ([locAX, locBY, locCX].map (fun l => l.name))) := by
  have h1 : (collectSeqV1 constEnvV1 [locAX, locBY, locCX]).err = none := by decide
  have h2 : (collectGroups constEnv (groupByArea [locAX, locBY, locCX])).err = none := by
    decide
  exact ⟨⟨h1, h2⟩, one_reading_per_location constEnvV1 constEnv _ h1 h2⟩

/-- Claim C3 counterexample: with input order A, B, C (areas X, Y, X) and
the Nowcast endpoint failing exactly for B, the run still produces a
reading for C — a location after B in the input list — although it issues
no sheet call. -/
theorem abort_order_counterexample :
    ((envFailAt 2).nowcast locBY.latitude locBY.longitude).ok = false ∧
    (mainRun (envFailAt 2) [] "2025-12-03" "00" false [locAX, locBY, locCX]).readings.map
        (fun r => r.location) = ["A", "C"] ∧
    (mainRun (envFailAt 2) [] "2025-12-03" "00" false
        [locAX, locBY, locCX]).sheetCalls = [] := by
  refine ⟨by decide, by decide, by decide⟩

/-- Claim C3 (amended): if the primary endpoint reports a non-success
status for a location `L`, the run exits with code 1, issues no sheet
call, and the readings it collected are a prefix of the locations before
`L` in the area-grouped fetch order. -/
theorem run_aborts_on_fetch_failure (env : Env) (hd : List String) (d hr : String)
    (dr : Bool) (locs pre post : List Location) (L : Location)
    (hsplit : fetchOrder locs = pre ++ L :: post)
    (hbad : (env.nowcast L.latitude L.longitude).ok = false) :
    (mainRun env hd d hr dr locs).sheetCalls = [] ∧
    (mainRun env hd d hr dr locs).exitCode = 1 ∧
    ∃ t, (mainRun env hd d hr dr locs).readings.map (fun r => r.location) ++ t =
      pre.map (fun l => l.name) := by
  have hfo : fetchOk env L = false := fetchOk_false_of_nowcast env L hbad
  have hstop := collectSeq_stops env pre L post hfo
  have heq : collectGroups env (groupByArea locs) = collectSeq env (pre ++ L :: post) := by
    rw [collectGroups_eq, ← hsplit]
    rfl
  obtain ⟨e, he⟩ : ∃ e, (collectGroups env (groupByArea locs)).err = some e := by
    rw [heq]
    cases h : (collectSeq env (pre ++ L :: post)).err with
    | none => rw [h] at hstop; simp at hstop
    | some e => exact ⟨e, rfl⟩
  have hrun : mainRun env hd d hr dr locs =
      ⟨(collectGroups env (groupByArea locs)).readings,
       (collectGroups env (groupByArea locs)).fetchCalls, [], 1⟩ := by
    simp only [mainRun, he]
  rw [hrun]
  refine ⟨rfl, rfl, ?_⟩
  simpa [heq] using hstop.2

/-- Witness for amended claim C3: the failure at B aborts the grouped run
after A, C with no sheet call. -/
theorem run_aborts_on_fetch_failure_witness :
    (fetchOrder [locAX, locBY, locCX] = [locAX, locCX] ++ locBY :: [] ∧
     ((envFailAt 2).nowcast locBY.latitude locBY.longitude).ok = false) ∧
    ((mainRun (envFailAt 2) [] "d" "00" false [locAX, locBY, locCX]).sheetCalls = [] ∧
     (mainRun (envFailAt 2) [] "d" "00" false [locAX, locBY, locCX]).exitCode = 1 ∧
     ∃ t, (mainRun (envFailAt 2) [] "d" "00" false [locAX, locBY, locCX]).readings.map
         (fun r => r.location) ++ t = [locAX, locCX].map (fun l => l.name)) := by
  have hs : fetchOrder [locAX, locBY, locCX] = [locAX, locCX] ++ locBY :: [] := by decide
  have hb : ((envFailAt 2).nowcast locBY.latitude locBY.longitude).ok = false := by decide
  exact ⟨⟨hs, hb⟩,
    run_aborts_on_fetch_failure (envFailAt 2) [] "d" "00" false
      [locAX, locBY, locCX] [locAX, locCX] [] locBY hs hb⟩

/-- Claim C5: in the wide layout, with a non-empty existing header and
distinct location names, the new header extends the old one at the end —
every pre-existing column keeps its order and index — and the appended
columns are exactly the location names not yet present among the header's
location columns, one column each. -/
theorem wide_header_append_only (existing : List String) (hne : existing ≠ [])
    (locations : List Location) (hnd : (locations.map (fun l => l.name)).Nodup)
    (weatherData : List ReadingV1) (date hour : String) :
    (∃ t, existing ++ t =
      (appendToSheetWide existing locations weatherData date hour).header) ∧
    ((appendToSheetWide existing locations weatherData date hour).header.drop
        existing.length).Nodup ∧
    (∀ n : String,
      n ∈ (appendToSheetWide existing locations weatherData date hour).header.drop
          existing.length ↔
        (n ∈ locations.map (fun l => l.name) ∧ n ∉ existing.drop 2)) := by
  have hlen : ¬ existing.length = 0 := by simpa [List.length_eq_zero] using hne
  rw [appendToSheetWide_header]
  simp only [if_neg hlen]
  refine ⟨⟨_, rfl⟩, ?_, ?_⟩
  · rw [List.drop_left]
    exact hnd.filter _
  · intro n
    rw [List.drop_left]
    simp [List.mem_filter]

/-- Witness for claim C5: appending readings for Oslo-like names A (known)
and B (unseen) to header [Date, Hour, A] adds exactly the column B. -/
theorem wide_header_append_only_witness :
    (wideHeader0 ≠ [] ∧ ([locAX, locBY].map (fun l => l.name)).Nodup) ∧
    ((∃ t, wideHeader0 ++ t =
        (appendToSheetWide wideHeader0 [locAX, locBY] [sampleReadingV1] "d" "00").header) ∧
     ((appendToSheetWide wideHeader0 [locAX, locBY] [sampleReadingV1] "d" "00").header.drop
         wideHeader0.length).Nodup ∧
     (∀ n : String,
       n ∈ (appendToSheetWide wideHeader0 [locAX, locBY]
           [sampleReadingV1] "d" "00").header.drop wideHeader0.length ↔
         (n ∈ [locAX, locBY].map (fun l => l.name) ∧ n ∉ wideHeader0.drop 2))) := by
  have h1 : wideHeader0 ≠ [] := by decide
  have h2 : ([locAX, locBY].map (fun l => l.name)).Nodup := by decide
  exact ⟨⟨h1, h2⟩,
    wide_header_append_only wideHeader0 h1 [locAX, locBY] h2 [sampleReadingV1] "d" "00"⟩

/-- Claim C10: in the wide layout (starting from an empty or well-formed
header), the appended data row has exactly as many cells as the grown
header has columns, and every location column with no matching reading
receives the empty string. -/
theorem wide_row_matches_header (existing : List String)
    (hwf : existing = [] ∨ 2 ≤ existing.length)
    (locations : List Location) (weatherData : List ReadingV1) (date hour : String) :
    (appendToSheetWide existing locations weatherData date hour).row.length =
      (appendToSheetWide existing locations weatherData date hour).header.length ∧
    ∀ i : Nat, 2 ≤ i →
      i < (appendToSheetWide existing locations weatherData date hour).header.length →
      weatherData.find? (fun w => w.location ==
          (appendToSheetWide existing locations weatherData date hour).header.getD i "") =
        none →
      (appendToSheetWide existing locations weatherData date hour).row.getD i Cell.null =
        Cell.str "" := by
  have hH2 : 2 ≤ (appendToSheetWide existing locations weatherData date hour).header.length := by
    rw [appendToSheetWide_header]
    rcases hwf with h | h
    · subst h; simp
    · have hlen : ¬ existing.length = 0 := by omega
      simp only [if_neg hlen, List.length_append]
      omega
  constructor
  · rw [appendToSheetWide_row]
    simp only [List.length_append, List.length_map, List.length_drop, List.length_cons,
      List.length_nil]
    omega
  · intro i h2 hi hfind
    rw [appendToSheetWide_row]
    rw [two_prefix_map_getD _ _ _ _ i h2 hi]
    simp only [hfind]

/-- Witness for claim C10 at the concrete header [Date, Hour, A] with a
reading only for A. -/
theorem wide_row_matches_header_witness :
    (wideHeader0 = [] ∨ 2 ≤ wideHeader0.length) ∧
    ((appendToSheetWide wideHeader0 [locAX, locBY] [sampleReadingV1] "d" "00").row.length =
      (appendToSheetWide wideHeader0 [locAX, locBY] [sampleReadingV1] "d" "00").header.length ∧
     ∀ i : Nat, 2 ≤ i →
       i < (appendToSheetWide wideHeader0 [locAX, locBY] [sampleReadingV1] "d" "00").header.length →
       List.find? (fun w => w.location ==
           (appendToSheetWide wideHeader0 [locAX, locBY]
             [sampleReadingV1] "d" "00").header.getD i "") [sampleReadingV1] =
         none →
       (appendToSheetWide wideHeader0 [locAX, locBY] [sampleReadingV1] "d" "00").row.getD i
           Cell.null =
         Cell.str "") := by
  have h1 : wideHeader0 = [] ∨ 2 ≤ wideHeader0.length := Or.inr (by decide)
  exact ⟨h1, wide_row_matches_header wideHeader0 h1 [locAX, locBY] [sampleReadingV1] "d" "00"⟩

/-- Claim C6: with an empty existing header, both long-format sheet writers
first write the default header for their layout, then append exactly one
row per reading, each cell sitting at the column index its header name
occupies. -/
theorem empty_header_then_rows (weatherData : List Reading) (wd1 : List ReadingV1)
    (date hour : String) :
    appendToSheetLongV2 [] weatherData date hour =
      [SheetCall.getValues "Sheet1!A1:G1",
       SheetCall.update "Sheet1!A1" [longHeaderV2.map Cell.str],
       SheetCall.append "Sheet1!A:G" (weatherData.map (rowOfReadingV2 date hour))] ∧
    (weatherData.map (rowOfReadingV2 date hour)).length = weatherData.length ∧
    appendToSheetLong [] wd1 date hour =
      [SheetCall.getValues "Sheet1!A1:D1",
       SheetCall.update "Sheet1!A1" [longHeaderV1.map Cell.str],
       SheetCall.append "Sheet1!A:D" (wd1.map (rowOfReadingV1 date hour))] ∧
    (wd1.map (rowOfReadingV1 date hour)).length = wd1.length ∧
    (∀ w : Reading,
      (rowOfReadingV2 date hour w).length = longHeaderV2.length ∧
      (rowOfReadingV2 date hour w).getD (longHeaderV2.indexOf "Date") Cell.null =
        Cell.str date ∧
      (rowOfReadingV2 date hour w).getD (longHeaderV2.indexOf "Hour") Cell.null =
        Cell.str hour ∧
      (rowOfReadingV2 date hour w).getD (longHeaderV2.indexOf "Area") Cell.null =
        Cell.str w.area ∧
      (rowOfReadingV2 date hour w).getD (longHeaderV2.indexOf "Location") Cell.null =
        Cell.str w.location ∧
      (rowOfReadingV2 date hour w).getD (longHeaderV2.indexOf "Temperature") Cell.null =
        Cell.num w.temperature ∧
      (rowOfReadingV2 date hour w).getD (longHeaderV2.indexOf "Precipitation") Cell.null =
        Cell.num w.precipitation ∧
      (rowOfReadingV2 date hour w).getD (longHeaderV2.indexOf "CloudCover") Cell.null =
        cellOfOpt w.cloudCover) ∧
    (∀ w : ReadingV1,
      (rowOfReadingV1 date hour w).length = longHeaderV1.length ∧
      (rowOfReadingV1 date hour w).getD (longHeaderV1.indexOf "Date") Cell.null =
        Cell.str date ∧
      (rowOfReadingV1 date hour w).getD (longHeaderV1.indexOf "Hour") Cell.null =
        Cell.str hour ∧
      (rowOfReadingV1 date hour w).getD (longHeaderV1.indexOf "Location") Cell.null =
        Cell.str w.location ∧
      (rowOfReadingV1 date hour w).getD (longHeaderV1.indexOf "Temperature") Cell.null =
        Cell.num w.temperature) := by
  refine ⟨rfl, by simp, rfl, by simp, fun w => ?_, fun w => ?_⟩
  · exact ⟨rfl, rfl, rfl, rfl, rfl, rfl, rfl, rfl⟩
  · exact ⟨rfl, rfl, rfl, rfl, rfl⟩

/-- Claim C7: under the dry-run flag every location is fetched, the run
exits successfully, and no call at all is issued to the spreadsheet API —
the last holding for every environment, even a failing one. -/
theorem dry_run_makes_no_sheet_calls (env : Env) (envA : EnvV1) (hd : List String)
    (d hr : String) (locs : List Location)
    (hok : (fetchOrder locs).all (fetchOk env) = true)
    (hok1 : locs.all (fetchOkV1 envA) = true) :
    (mainRun env hd d hr true locs).sheetCalls = [] ∧
    (mainRun env hd d hr true locs).exitCode = 0 ∧
    (mainRun env hd d hr true locs).fetchCalls =
      (fetchOrder locs).map (fun l => (l.latitude, l.longitude)) ∧
    (mainRunV1 envA hd d hr true locs).sheetCalls = [] ∧
    (mainRunV1 envA hd d hr true locs).exitCode = 0 ∧
    (mainRunV1 envA hd d hr true locs).fetchCalls =
      locs.map (fun l => (l.latitude, l.longitude)) ∧
    (∀ env2 : Env, (mainRun env2 hd d hr true locs).sheetCalls = []) ∧
    (∀ envB : EnvV1, (mainRunV1 envB hd d hr true locs).sheetCalls = []) := by
  have hseq : (collectSeq env (fetchOrder locs)).err = none :=
    collectSeq_all_ok env (fetchOrder locs) hok
  have he : (collectGroups env (groupByArea locs)).err = none := by
    rw [collectGroups_eq]; exact hseq
  have he1 : (collectSeqV1 envA locs).err = none := collectSeqV1_all_ok envA locs hok1
  have hrun : mainRun env hd d hr true locs =
      ⟨(collectGroups env (groupByArea locs)).readings,
       (collectGroups env (groupByArea locs)).fetchCalls, [], 0⟩ := by
    simp only [mainRun, he, if_true]
  have hrun1 : mainRunV1 envA hd d hr true locs =
      ⟨(collectSeqV1 envA locs).readings, (collectSeqV1 envA locs).fetchCalls, [], 0⟩ := by
    simp only [mainRunV1, he1, if_true]
  have hcalls : (collectGroups env (groupByArea locs)).fetchCalls =
      (fetchOrder locs).map (fun l => (l.latitude, l.longitude)) := by
    rw [collectGroups_eq]
    exact (collectSeq_err_none env (fetchOrder locs) hseq).2
  have hcalls1 : (collectSeqV1 envA locs).fetchCalls =
      locs.map (fun l => (l.latitude, l.longitude)) :=
    (collectSeqV1_err_none envA locs he1).2
  refine ⟨by rw [hrun], by rw [hrun], by rw [hrun]; exact hcalls,
    by rw [hrun1], by rw [hrun1], by rw [hrun1]; exact hcalls1, ?_, ?_⟩
  · intro env2
    cases h : (collectGroups env2 (groupByArea locs)).err <;> simp [mainRun, h]
  · intro envB
    cases h : (collectSeqV1 envB locs).err <;> simp [mainRunV1, h]

/-- Witness for claim C7 at the three-location example under the
all-success environment. -/
theorem dry_run_makes_no_sheet_calls_witness :
    ((fetchOrder [locAX, locBY, locCX]).all (fetchOk constEnv) = true ∧
     [locAX, locBY, locCX].all (fetchOkV1 constEnvV1) = true) ∧
    ((mainRun constEnv [] "d" "00" true [locAX, locBY, locCX]).sheetCalls = [] ∧
     (mainRun constEnv [] "d" "00" true [locAX, locBY, locCX]).exitCode = 0 ∧
     (mainRun constEnv [] "d" "00" true [locAX, locBY, locCX]).fetchCalls =
       (fetchOrder [locAX, locBY, locCX]).map (fun l => (l.latitude, l.longitude)) ∧
     (mainRunV1 constEnvV1 [] "d" "00" true [locAX, locBY, locCX]).sheetCalls = [] ∧
     (mainRunV1 constEnvV1 [] "d" "00" true [locAX, locBY, locCX]).exitCode = 0 ∧
     (mainRunV1 constEnvV1 [] "d" "00" true [locAX, locBY, locCX]).fetchCalls =
       [locAX, locBY, locCX].map (fun l => (l.latitude, l.longitude)) ∧
     (∀ env2 : Env, (mainRun env2 [] "d" "00" true [locAX, locBY, locCX]).sheetCalls = []) ∧
     (∀ envB : EnvV1,
       (mainRunV1 envB [] "d" "00" true [locAX, locBY, locCX]).sheetCalls = [])) := by
  have h1 : (fetchOrder [locAX, locBY, locCX]).all (fetchOk constEnv) = true := by decide
  have h2 : [locAX, locBY, locCX].all (fetchOkV1 constEnvV1) = true := by decide
  exact ⟨⟨h1, h2⟩,
    dry_run_makes_no_sheet_calls constEnv constEnvV1 [] "d" "00" [locAX, locBY, locCX] h1 h2⟩

/-- Claim C8: the bulk writer appends the rows in batches of at most 1000:
its append calls carry exactly the consecutive chunks of the row list, the
chunks concatenate back to the original rows (each row in exactly one
batch, original order), and every chunk holds at most 1000 rows. -/
theorem bulk_append_batching (existingHeaders : List String) (rows : List (List Cell)) :
    ((appendToSheetBulk existingHeaders rows).filterMap appendBody) = chunkRows rows ∧
    (chunkRows rows).flatten = rows ∧
    ((chunkRows rows).all (fun batch => batch.length ≤ 1000)) = true := by
  refine ⟨?_, chunkRows_flatten rows, chunkRows_le rows⟩
  unfold appendToSheetBulk
  by_cases h : existingHeaders.length = 0 <;>
    simp only [h, if_pos, if_neg, List.filterMap_cons, List.filterMap_append,
      List.filterMap_map, appendBody, if_true, if_false, List.nil_append,
      List.singleton_append, reduceCtorEq, reduceIte] <;>
    exact List.filterMap_some (chunkRows rows)

end Conditions
